import Mathlib

/-!
Verification of the quote and transaction-construction engine of the
reflect-api-rs service. Each Rust handler is shallowly embedded as a pure
Lean function from its (deserialized) request to a pair of an HTTP status
code and a JSON response body. Rust `i64` values are modelled as `Int`
with Rust division semantics (`Int.tdiv`, truncation toward zero) and
`u32`/`u64` values as `Nat`; JSON bodies are modelled by an explicit
`Json` inductive whose object fields follow the declaration order of the
serialized Rust structs (JSON object key order is semantically
immaterial and is not otherwise modelled).
-/

namespace ReflectApi

/-- JSON values as produced by the handlers' serde serialization.
`fnum` carries a floating-point literal opaquely by its decimal
rendering: no handler in scope performs arithmetic on floats. -/
inductive Json where
  | null : Json
  | bool (b : Bool) : Json
  | num (n : Int) : Json
  | fnum (s : String) : Json
  | str (s : String) : Json
  | arr (xs : List Json) : Json
  | obj (fields : List (String × Json)) : Json

/-- Look up a top-level field of a JSON object; `none` on non-objects. -/
def Json.getField : Json → String → Option Json
  | .obj fields, key => fields.lookup key
  | _, _ => none

/-- Whether a JSON value is an object. -/
def Json.isObj : Json → Bool
  | .obj _ => true
  | _ => false

/-- Error message shared by the amount-validation branches
(and, verbatim, by the realtime-exchange-rate and historical-APY
error branches of the source). -/
def invalid_amount_message : String :=
  "Invalid request data: depositAmount must be positive"

/-- Error message of the stablecoin-index validation branches of
`generate_mint_transaction` and `generate_burn_transaction`. -/
def asset_not_found_message : String :=
  "Stablecoin with the specified index not found"

/-- Request body of `POST /stablecoins/quote`, from
`src/stablecoin/get_mint_redeem_quote.rs` (`stablecoinIndex : u32`,
`depositAmount : i64`). -/
structure QuoteRequest where
  stablecoinIndex : Nat
  depositAmount : Int

/-- The fee term of the quote computation: the subtracted term
`depositAmount / 1000` of `get_mint_redeem_quote`, with Rust `i64`
division (truncation toward zero). -/
def quote_fee (amount : Int) : Int := Int.tdiv amount 1000

/-- Embedding of `get_mint_redeem_quote` from
`src/stablecoin/get_mint_redeem_quote.rs`: validates the deposit amount,
computes `quoted_amount = depositAmount - depositAmount / 1000`, and
dispatches on the quote type, `mint` and `redeem` succeeding and any
other type falling through to a 404 error. The success body serializes
`QuoteSuccessResponse` (fields `success`, `data`), the error body the
`QuoteErrorResponse` struct (fields `success`, `message`). -/
def get_mint_redeem_quote (quote_type : String) (req : QuoteRequest) : Nat × Json :=
  if req.depositAmount ≤ 0 then
    (400, Json.obj [("success", Json.bool false),
                    ("message", Json.str invalid_amount_message)])
  else
    let quoted_amount := req.depositAmount - Int.tdiv req.depositAmount 1000
    if quote_type = "mint" ∨ quote_type = "redeem" then
      (200, Json.obj [("success", Json.bool true),
                      ("data", Json.num quoted_amount)])
    else
      (404, Json.obj [("success", Json.bool false),
                      ("message", Json.str "Invalid request type")])

/-- Request body of `POST /stablecoins/mint/tx`, from
`src/stablecoin/generate_mint_transaction.rs` (camelCase fields). -/
structure MintRequest where
  stablecoinIndex : Nat
  depositAmount : Int
  signer : String
  minimumReceived : Int
  collateralMint : Option String

/-- The `cluster` query parameter of the mint and burn transaction
endpoints (`mainnet` or `devnet`, optional). -/
structure ClusterQuery where
  cluster : Option String

/-- Request body of `POST /stablecoins/burn/tx`, from
`src/stablecoin/generate_burn_transaction.rs` (snake_case fields). -/
structure BurnRequest where
  stablecoin_index : Nat
  deposit_amount : Int
  signer : String
  minimum_received : Int
  collateral_mint : Option String

/-- The simulated transaction string of `generate_mint_transaction`. -/
def mint_tx : String :=
  "AQAAAAAAAAAAAAAAAAAAAAAAAAAAAAAAAAAAAAAAAAAAAAAAAAAAAAAAAAAAAAAAAAAAAAAAAAAAAAAAAAAAAAABAAED..."

/-- The simulated transaction string of `generate_burn_transaction`. -/
def burn_tx : String :=
  "AQAAAAAAAAAAAAAAAAAAAAAAAAAAAAAAAAAAAAAAAAAAAAAAAAAAAAAAAAAAAAAAAAAAAAAAAAAAAAAAAAAAAAABAAED..."

/-- Embedding of `generate_mint_transaction` from
`src/stablecoin/generate_mint_transaction.rs`: rejects non-positive
deposit amounts with 400, then unknown stablecoin indices with 404, and
otherwise returns the simulated transaction in a
`MintSuccessResponse`-shaped envelope. The `cluster` query parameter is
accepted but unused by the source. -/
def generate_mint_transaction (cluster : ClusterQuery) (req : MintRequest) :
    Nat × Json :=
  if req.depositAmount ≤ 0 then
    (400, Json.obj [("success", Json.bool false),
                    ("message", Json.str invalid_amount_message)])
  else if req.stablecoinIndex ≠ 0 then
    (404, Json.obj [("success", Json.bool false),
                    ("message", Json.str asset_not_found_message)])
  else
    (200, Json.obj [("success", Json.bool true),
                    ("data", Json.obj [("transaction", Json.str mint_tx)])])

/-- Embedding of `generate_burn_transaction` from
`src/stablecoin/generate_burn_transaction.rs`: same validation order and
response shapes as the mint generator, over the snake_case request. -/
def generate_burn_transaction (cluster : ClusterQuery) (req : BurnRequest) :
    Nat × Json :=
  if req.deposit_amount ≤ 0 then
    (400, Json.obj [("success", Json.bool false),
                    ("message", Json.str invalid_amount_message)])
  else if req.stablecoin_index ≠ 0 then
    (404, Json.obj [("success", Json.bool false),
                    ("message", Json.str asset_not_found_message)])
  else
    (200, Json.obj [("success", Json.bool true),
                    ("data", Json.obj [("transaction", Json.str burn_tx)])])

/-- Embedding of `get_realtime_exchange_rate` from
`src/stablecoin/get_realtime_exchange_rate.rs`: an index other than 0 is
rejected with HTTP 400 and, verbatim from the source, the
deposit-amount error message; index 0 yields the simulated rate data. -/
def get_realtime_exchange_rate (index : Nat) : Nat × Json :=
  if index ≠ 0 then
    (400, Json.obj [("success", Json.bool false),
                    ("message", Json.str invalid_amount_message)])
  else
    (200, Json.obj [("success", Json.bool true),
                    ("data", Json.obj [("base", Json.num 1016858791),
                                       ("receipt", Json.num 1016858791)])])

/-- Query parameters of the historical exchange-rate endpoint, from
`src/stablecoin/get_historical_exchange_rates.rs`. -/
structure HistoricalQuery where
  stablecoin : Nat
  days : Nat

/-- The two simulated `HistoricalExchangeRateData` records returned by
`get_historical_exchange_rates`, parametrized by the echoed stablecoin
index (fields `id`, `stablecoin`, `base_usd_value_bps`, `timestamp`,
`receipt_usd_value_bps`, in declaration order). -/
def historical_rate_records (stablecoin : Nat) : List Json :=
  [Json.obj [("id", Json.num 104135),
             ("stablecoin", Json.num stablecoin),
             ("base_usd_value_bps", Json.num 1016733625),
             ("timestamp", Json.str "2025-12-18T17:46:10.274Z"),
             ("receipt_usd_value_bps", Json.num 1016733625)],
   Json.obj [("id", Json.num 104137),
             ("stablecoin", Json.num stablecoin),
             ("base_usd_value_bps", Json.num 1016728666),
             ("timestamp", Json.str "2025-12-18T17:47:08.161Z"),
             ("receipt_usd_value_bps", Json.num 1016728667)]]

/-- Embedding of `get_historical_exchange_rates` from
`src/stablecoin/get_historical_exchange_rates.rs`: unconditionally
returns HTTP 200 with the two simulated records; neither the `days` nor
the `stablecoin` query parameter is validated. -/
def get_historical_exchange_rates (query : HistoricalQuery) : Nat × Json :=
  (200, Json.obj [("success", Json.bool true),
                  ("data", Json.arr (historical_rate_records query.stablecoin))])

/-- Query parameters of the historical APY endpoint, from
`src/stablecoin/get_historical_apy.rs` (`days` optional, default 365). -/
structure HistoricalApyQuery where
  days : Option Nat

/-- Embedding of `get_historical_apy` from
`src/stablecoin/get_historical_apy.rs`: defaults `days` to 365, rejects
`days < 1` with HTTP 400 (reusing, verbatim from the source, the
deposit-amount error message), and otherwise returns the simulated APY
snapshot echoing the path index. -/
def get_historical_apy (index : Nat) (query : HistoricalApyQuery) : Nat × Json :=
  let days := query.days.getD 365
  if days < 1 then
    (400, Json.obj [("success", Json.bool false),
                    ("message", Json.str invalid_amount_message)])
  else
    (200, Json.obj [("success", Json.bool true),
                    ("data", Json.obj [("index", Json.num index),
                                       ("apy", Json.fnum "5.25"),
                                       ("timestamp", Json.str "2023-11-07T05:31:56Z")])])

/-- A `SupplyCap` record of `src/stablecoin/get_supply_caps.rs`
(Rust `u32`/`u64` fields modelled as `Nat`). -/
structure SupplyCap where
  index : Nat
  supply_cap : Nat
  current_supply : Nat
  remaining_capacity : Nat
  utilization_percentage : Nat
deriving DecidableEq

/-- The static supply-cap data of `get_supply_caps` (one USDC+ record). -/
def supply_caps_data : List SupplyCap :=
  [{ index := 0,
     supply_cap := 1000000000,
     current_supply := 500000000,
     remaining_capacity := 500000000,
     utilization_percentage := 50 }]

/-- Serialization of a `SupplyCap` record with the serde renames of the
source (camelCase keys). -/
def SupplyCap.toJson (c : SupplyCap) : Json :=
  Json.obj [("index", Json.num c.index),
            ("supplyCap", Json.num c.supply_cap),
            ("currentSupply", Json.num c.current_supply),
            ("remainingCapacity", Json.num c.remaining_capacity),
            ("utilizationPercentage", Json.num c.utilization_percentage)]

/-- Embedding of `get_supply_caps` from
`src/stablecoin/get_supply_caps.rs`: returns HTTP 200 with the static
record list. -/
def get_supply_caps : Nat × Json :=
  (200, Json.obj [("success", Json.bool true),
                  ("data", Json.arr (supply_caps_data.map SupplyCap.toJson))])

/-- Request body of `POST /integrations/redeem/tx`, from
`src/integration/generate_redemption_tx.rs`. The `amount` field is an
`f64` in the source; it is modelled as `Int` because the handler never
computes with it (it is only echoed back) and every value of interest
here is integral. -/
structure RedeemReq where
  amount : Int
  holder : String

/-- Embedding of `generate_redemption_tx` from
`src/integration/generate_redemption_tx.rs`: no validation of any kind;
unconditionally returns HTTP 200 (axum's default for a bare `Json`
response) with a bare object echoing the request. -/
def generate_redemption_tx (payload : RedeemReq) : Nat × Json :=
  (200, Json.obj [("tx", Json.str "0xintredeem"),
                  ("amount", Json.num payload.amount),
                  ("holder", Json.str payload.holder)])

/-- Request body of `POST /integrations/claim/tx`, from
`src/integration/generate_claim_tx.rs`. -/
structure ClaimReq where
  claimant : String

/-- Embedding of `generate_claim_tx` from
`src/integration/generate_claim_tx.rs`: no validation; unconditionally
returns HTTP 200 with a bare object echoing the claimant. -/
def generate_claim_tx (payload : ClaimReq) : Nat × Json :=
  (200, Json.obj [("tx", Json.str "0xclaimtx"),
                  ("claimant", Json.str payload.claimant)])

/-- C1: for every deposit amount > 0 the fee subtracted by the quote
computation equals `floor(amount * 10 / 10000)` (the 10-bps schedule),
the quote handler returns `net = amount - fee` for both `mint` and
`redeem`, and `fee + net = amount`. -/
theorem quote_fee_and_net_add_up (idx : Nat) (amount : Int) (h : 0 < amount) :
    quote_fee amount = Int.fdiv (amount * 10) 10000 ∧
    quote_fee amount + (amount - quote_fee amount) = amount ∧
    get_mint_redeem_quote "mint" ⟨idx, amount⟩ =
      (200, Json.obj [("success", Json.bool true),
                      ("data", Json.num (amount - quote_fee amount))]) ∧
    get_mint_redeem_quote "redeem" ⟨idx, amount⟩ =
      (200, Json.obj [("success", Json.bool true),
                      ("data", Json.num (amount - quote_fee amount))]) := by
  refine ⟨?_, by ring, ?_, ?_⟩
  · unfold quote_fee
    rw [Int.tdiv_eq_ediv (by omega) (by omega), Int.fdiv_eq_ediv _ (by omega)]
    omega
  · unfold get_mint_redeem_quote
    rw [if_neg (show ¬ ((⟨idx, amount⟩ : QuoteRequest).depositAmount ≤ 0) by
      simp; omega)]
    simp [quote_fee]
  · unfold get_mint_redeem_quote
    rw [if_neg (show ¬ ((⟨idx, amount⟩ : QuoteRequest).depositAmount ≤ 0) by
      simp; omega)]
    simp [quote_fee]

/-- C1 witness: the quote at amount 1000000 has fee 1000 and net 999000. -/
theorem quote_fee_and_net_add_up_witness :
    (0 : Int) < 1000000 ∧
    (quote_fee 1000000 = Int.fdiv (1000000 * 10) 10000 ∧
     quote_fee 1000000 + (1000000 - quote_fee 1000000) = 1000000 ∧
     get_mint_redeem_quote "mint" ⟨0, 1000000⟩ =
       (200, Json.obj [("success", Json.bool true),
                       ("data", Json.num (1000000 - quote_fee 1000000))]) ∧
     get_mint_redeem_quote "redeem" ⟨0, 1000000⟩ =
       (200, Json.obj [("success", Json.bool true),
                       ("data", Json.num (1000000 - quote_fee 1000000))])) :=
  ⟨by norm_num, quote_fee_and_net_add_up 0 1000000 (by norm_num)⟩

/-- C2 counterexample: at the request (asset 0, amount 1000000, mint) the
quote endpoint returns `data` as the bare number 999000; the data field
is not a JSON object and in particular carries no `fee` field, refuting
the claimed object shape with fee, net and gross members. -/
theorem quote_data_is_scalar_not_object :
    (get_mint_redeem_quote "mint" ⟨0, 1000000⟩).2.getField "data" =
      some (Json.num 999000) ∧
    (Json.num 999000).isObj = false ∧
    (Json.num 999000).getField "fee" = none :=
  ⟨rfl, rfl, rfl⟩

/-- C2 amended: for the request (asset 0, amount 1000000, mint) with the
fixed 10-bps fee the quote endpoint returns HTTP 200 with success true
and `data` equal to the bare integer 999000 (the net amount; fee and
gross are not reported separately). -/
theorem quote_mint_1000000_returns_999000 :
    get_mint_redeem_quote "mint" ⟨0, 1000000⟩ =
      (200, Json.obj [("success", Json.bool true),
                      ("data", Json.num 999000)]) := rfl

/-- C3 counterexample: the integrations redemption transaction endpoint
is a transaction-generation operation, yet at the non-positive amount
-100 it returns HTTP 200 and builds the transaction `0xintredeem`
instead of failing with the 400 InvalidAmount error. -/
theorem redemption_tx_ignores_nonpositive_amount :
    (-100 : Int) ≤ 0 ∧
    generate_redemption_tx ⟨-100, "holder1"⟩ =
      (200, Json.obj [("tx", Json.str "0xintredeem"),
                      ("amount", Json.num (-100)),
                      ("holder", Json.str "holder1")]) :=
  ⟨by norm_num, rfl⟩

/-- C3 amended: for every deposit amount ≤ 0 the quote endpoint (under
every quote type) and the stablecoin mint and burn transaction
generators fail with HTTP 400 and the message `Invalid request data:
depositAmount must be positive`, computing no quote and building no
transaction; the integrations redemption endpoint, in contrast, performs
no amount validation. -/
theorem nonpositive_amount_rejected (t : String) (idx : Nat) (amount : Int)
    (s : String) (m : Int) (cm cl : Option String) (h : amount ≤ 0) :
    get_mint_redeem_quote t ⟨idx, amount⟩ =
      (400, Json.obj [("success", Json.bool false),
                      ("message", Json.str invalid_amount_message)]) ∧
    generate_mint_transaction ⟨cl⟩ ⟨idx, amount, s, m, cm⟩ =
      (400, Json.obj [("success", Json.bool false),
                      ("message", Json.str invalid_amount_message)]) ∧
    generate_burn_transaction ⟨cl⟩ ⟨idx, amount, s, m, cm⟩ =
      (400, Json.obj [("success", Json.bool false),
                      ("message", Json.str invalid_amount_message)]) := by
  refine ⟨?_, ?_, ?_⟩ <;>
    simp [get_mint_redeem_quote, generate_mint_transaction,
          generate_burn_transaction, h]

/-- C3 witness: at amount -100 all three validated endpoints reject. -/
theorem nonpositive_amount_rejected_witness :
    (-100 : Int) ≤ 0 ∧
    (get_mint_redeem_quote "mint" ⟨0, -100⟩ =
      (400, Json.obj [("success", Json.bool false),
                      ("message", Json.str invalid_amount_message)]) ∧
     generate_mint_transaction ⟨none⟩ ⟨0, -100, "signerA", 999000, none⟩ =
      (400, Json.obj [("success", Json.bool false),
                      ("message", Json.str invalid_amount_message)]) ∧
     generate_burn_transaction ⟨none⟩ ⟨0, -100, "signerA", 999000, none⟩ =
      (400, Json.obj [("success", Json.bool false),
                      ("message", Json.str invalid_amount_message)])) :=
  ⟨by norm_num,
   nonpositive_amount_rejected "mint" 0 (-100) "signerA" 999000 none none
     (by norm_num)⟩

/-- C4 counterexample: at the unknown asset index 99 the quote endpoint
does not fail with 404 AssetNotFound; it returns HTTP 200 with a full
quote, and the realtime exchange-rate endpoint rejects index 99 with
HTTP 400 and the deposit-amount message rather than 404 with the
not-found message. -/
theorem unknown_asset_quote_succeeds :
    (99 : Nat) ≠ 0 ∧
    get_mint_redeem_quote "mint" ⟨99, 1000000⟩ =
      (200, Json.obj [("success", Json.bool true),
                      ("data", Json.num 999000)]) ∧
    get_realtime_exchange_rate 99 =
      (400, Json.obj [("success", Json.bool false),
                      ("message", Json.str invalid_amount_message)]) :=
  ⟨by norm_num, rfl, rfl⟩

/-- C4 amended: only the stablecoin mint and burn transaction generators
reject an unknown asset index with 404 and the message `Stablecoin with
the specified index not found`; the realtime exchange-rate endpoint
rejects it with HTTP 400 and the deposit-amount message, while the
quote and historical exchange-rate endpoints perform no asset-index
check at all and return complete data for any index. -/
theorem unknown_asset_handling (idx : Nat) (amount : Int) (s : String)
    (m : Int) (cm cl : Option String) (d : Nat)
    (hidx : idx ≠ 0) (hamt : 0 < amount) :
    generate_mint_transaction ⟨cl⟩ ⟨idx, amount, s, m, cm⟩ =
      (404, Json.obj [("success", Json.bool false),
                      ("message", Json.str asset_not_found_message)]) ∧
    generate_burn_transaction ⟨cl⟩ ⟨idx, amount, s, m, cm⟩ =
      (404, Json.obj [("success", Json.bool false),
                      ("message", Json.str asset_not_found_message)]) ∧
    get_realtime_exchange_rate idx =
      (400, Json.obj [("success", Json.bool false),
                      ("message", Json.str invalid_amount_message)]) ∧
    get_mint_redeem_quote "mint" ⟨idx, amount⟩ =
      (200, Json.obj [("success", Json.bool true),
                      ("data", Json.num (amount - quote_fee amount))]) ∧
    get_historical_exchange_rates ⟨idx, d⟩ =
      (200, Json.obj [("success", Json.bool true),
                      ("data", Json.arr (historical_rate_records idx))]) := by
  refine ⟨?_, ?_, ?_, ?_, rfl⟩
  · simp [generate_mint_transaction, hamt.not_le, hidx]
  · simp [generate_burn_transaction, hamt.not_le, hidx]
  · simp [get_realtime_exchange_rate, hidx]
  · unfold get_mint_redeem_quote
    rw [if_neg (show ¬ ((⟨idx, amount⟩ : QuoteRequest).depositAmount ≤ 0) by
      simp; omega)]
    simp [quote_fee]

/-- C4 witness: the divergent behaviors at index 99 and amount 1000000. -/
theorem unknown_asset_handling_witness :
    ((99 : Nat) ≠ 0 ∧ (0 : Int) < 1000000) ∧
    (generate_mint_transaction ⟨none⟩ ⟨99, 1000000, "signerB", 999000, none⟩ =
      (404, Json.obj [("success", Json.bool false),
                      ("message", Json.str asset_not_found_message)]) ∧
     generate_burn_transaction ⟨none⟩ ⟨99, 1000000, "signerB", 999000, none⟩ =
      (404, Json.obj [("success", Json.bool false),
                      ("message", Json.str asset_not_found_message)]) ∧
     get_realtime_exchange_rate 99 =
      (400, Json.obj [("success", Json.bool false),
                      ("message", Json.str invalid_amount_message)]) ∧
     get_mint_redeem_quote "mint" ⟨99, 1000000⟩ =
      (200, Json.obj [("success", Json.bool true),
                      ("data", Json.num (1000000 - quote_fee 1000000))]) ∧
     get_historical_exchange_rates ⟨99, 7⟩ =
      (200, Json.obj [("success", Json.bool true),
                      ("data", Json.arr (historical_rate_records 99))])) :=
  ⟨⟨by norm_num, by norm_num⟩,
   unknown_asset_handling 99 1000000 "signerB" 999000 none none 7
     (by norm_num) (by norm_num)⟩

/-- C5 counterexample: the historical exchange-rate query with
day count 0 does not fail with InvalidRange; it returns HTTP 200 with
the two simulated records. -/
theorem historical_rates_day_zero_returns_data :
    get_historical_exchange_rates ⟨0, 0⟩ =
      (200, Json.obj [("success", Json.bool true),
                      ("data", Json.arr (historical_rate_records 0))]) ∧
    (historical_rate_records 0).length = 2 :=
  ⟨rfl, rfl⟩

/-- C5 amended: of the two historical-data endpoints only historical
APY validates the day count, rejecting `days < 1` with HTTP 400 and no
data (with the deposit-amount message rather than an InvalidRange one);
the historical exchange-rate endpoint performs no day-count validation
and returns its records for every query, day count 0 included. -/
theorem historical_day_count_validation (index : Nat)
    (query : HistoricalApyQuery) (rq : HistoricalQuery)
    (h : query.days.getD 365 < 1) :
    get_historical_apy index query =
      (400, Json.obj [("success", Json.bool false),
                      ("message", Json.str invalid_amount_message)]) ∧
    get_historical_exchange_rates rq =
      (200, Json.obj [("success", Json.bool true),
                      ("data", Json.arr (historical_rate_records rq.stablecoin))]) :=
  ⟨by simp [get_historical_apy, h], rfl⟩

/-- C5 witness: days 0 rejects on the APY endpoint and passes through
on the exchange-rate endpoint. -/
theorem historical_day_count_validation_witness :
    ((HistoricalApyQuery.mk (some 0)).days.getD 365 < 1) ∧
    (get_historical_apy 0 ⟨some 0⟩ =
      (400, Json.obj [("success", Json.bool false),
                      ("message", Json.str invalid_amount_message)]) ∧
     get_historical_exchange_rates ⟨5, 0⟩ =
      (200, Json.obj [("success", Json.bool true),
                      ("data", Json.arr (historical_rate_records 5))])) :=
  ⟨by norm_num, historical_day_count_validation 0 ⟨some 0⟩ ⟨5, 0⟩ (by norm_num)⟩

/-- C6: the amount rule is checked before the asset-index rule: a
request with non-positive amount and unknown index fails with the 400
InvalidAmount error, not with 404 AssetNotFound, on both transaction
generators. -/
theorem invalid_amount_checked_before_asset (idx : Nat) (amount : Int)
    (s : String) (m : Int) (cm cl : Option String)
    (hamt : amount ≤ 0) (hidx : idx ≠ 0) :
    generate_mint_transaction ⟨cl⟩ ⟨idx, amount, s, m, cm⟩ =
      (400, Json.obj [("success", Json.bool false),
                      ("message", Json.str invalid_amount_message)]) ∧
    generate_burn_transaction ⟨cl⟩ ⟨idx, amount, s, m, cm⟩ =
      (400, Json.obj [("success", Json.bool false),
                      ("message", Json.str invalid_amount_message)]) := by
  constructor <;>
    simp [generate_mint_transaction, generate_burn_transaction, hamt]

/-- C6 witness: amount -100 with unknown index 99 yields the 400
InvalidAmount error on both generators. -/
theorem invalid_amount_checked_before_asset_witness :
    ((-100 : Int) ≤ 0 ∧ (99 : Nat) ≠ 0) ∧
    (generate_mint_transaction ⟨none⟩ ⟨99, -100, "signerC", 0, none⟩ =
      (400, Json.obj [("success", Json.bool false),
                      ("message", Json.str invalid_amount_message)]) ∧
     generate_burn_transaction ⟨none⟩ ⟨99, -100, "signerC", 0, none⟩ =
      (400, Json.obj [("success", Json.bool false),
                      ("message", Json.str invalid_amount_message)])) :=
  ⟨⟨by norm_num, by norm_num⟩,
   invalid_amount_checked_before_asset 99 (-100) "signerC" 0 none none
     (by norm_num) (by norm_num)⟩

/-- C7: every quote type outside mint, redeem and burn is rejected by
the quote handler's fallback branch with HTTP 404 and the message
`Invalid request type`, even when the amount and asset are valid. -/
theorem unsupported_operation_rejected (t : String) (idx : Nat)
    (amount : Int) (h1 : t ≠ "mint") (h2 : t ≠ "redeem") (h3 : t ≠ "burn")
    (hamt : 0 < amount) :
    get_mint_redeem_quote t ⟨idx, amount⟩ =
      (404, Json.obj [("success", Json.bool false),
                      ("message", Json.str "Invalid request type")]) := by
  unfold get_mint_redeem_quote
  rw [if_neg (show ¬ ((⟨idx, amount⟩ : QuoteRequest).depositAmount ≤ 0) by
    simp; omega)]
  simp [h1, h2]

/-- C7 witness: quote type `swap` with valid fields is rejected 404. -/
theorem unsupported_operation_rejected_witness :
    ("swap" ≠ "mint" ∧ "swap" ≠ "redeem" ∧ "swap" ≠ "burn" ∧
      (0 : Int) < 1000000) ∧
    get_mint_redeem_quote "swap" ⟨0, 1000000⟩ =
      (404, Json.obj [("success", Json.bool false),
                      ("message", Json.str "Invalid request type")]) :=
  ⟨⟨by decide, by decide, by decide, by norm_num⟩,
   unsupported_operation_rejected "swap" 0 1000000 (by decide) (by decide)
     (by decide) (by norm_num)⟩

/-- C8 counterexample: the integrations claim transaction endpoint does
not return the uniform envelope: its 200 response is a bare object with
`tx` and `claimant` fields and carries no `success` and no `data`
member. -/
theorem claim_tx_lacks_uniform_envelope :
    generate_claim_tx ⟨"claimant1"⟩ =
      (200, Json.obj [("tx", Json.str "0xclaimtx"),
                      ("claimant", Json.str "claimant1")]) ∧
    (generate_claim_tx ⟨"claimant1"⟩).2.getField "success" = none ∧
    (generate_claim_tx ⟨"claimant1"⟩).2.getField "data" = none :=
  ⟨rfl, rfl, rfl⟩

/-- C8 amended: the stablecoin mint and burn transaction endpoints
return the uniform envelope (success true with data.transaction on
success; the 400 and 404 error shapes of the quote endpoint on invalid
input), whereas the integrations redemption and claim endpoints return
HTTP 200 unconditionally with bare objects that carry no success
envelope and undergo no validation. -/
theorem tx_endpoint_envelopes (amount bad : Int) (s : String) (m : Int)
    (cm cl : Option String) (badIdx : Nat) (ra : Int) (rh c : String)
    (hamt : 0 < amount) (hbad : bad ≤ 0) (hidx : badIdx ≠ 0) :
    generate_mint_transaction ⟨cl⟩ ⟨0, amount, s, m, cm⟩ =
      (200, Json.obj [("success", Json.bool true),
                      ("data", Json.obj [("transaction", Json.str mint_tx)])]) ∧
    generate_burn_transaction ⟨cl⟩ ⟨0, amount, s, m, cm⟩ =
      (200, Json.obj [("success", Json.bool true),
                      ("data", Json.obj [("transaction", Json.str burn_tx)])]) ∧
    generate_mint_transaction ⟨cl⟩ ⟨0, bad, s, m, cm⟩ =
      (400, Json.obj [("success", Json.bool false),
                      ("message", Json.str invalid_amount_message)]) ∧
    generate_burn_transaction ⟨cl⟩ ⟨0, bad, s, m, cm⟩ =
      (400, Json.obj [("success", Json.bool false),
                      ("message", Json.str invalid_amount_message)]) ∧
    generate_mint_transaction ⟨cl⟩ ⟨badIdx, amount, s, m, cm⟩ =
      (404, Json.obj [("success", Json.bool false),
                      ("message", Json.str asset_not_found_message)]) ∧
    generate_burn_transaction ⟨cl⟩ ⟨badIdx, amount, s, m, cm⟩ =
      (404, Json.obj [("success", Json.bool false),
                      ("message", Json.str asset_not_found_message)]) ∧
    generate_redemption_tx ⟨ra, rh⟩ =
      (200, Json.obj [("tx", Json.str "0xintredeem"),
                      ("amount", Json.num ra),
                      ("holder", Json.str rh)]) ∧
    generate_claim_tx ⟨c⟩ =
      (200, Json.obj [("tx", Json.str "0xclaimtx"),
                      ("claimant", Json.str c)]) ∧
    (generate_redemption_tx ⟨ra, rh⟩).2.getField "success" = none ∧
    (generate_claim_tx ⟨c⟩).2.getField "success" = none := by
  refine ⟨?_, ?_, ?_, ?_, ?_, ?_, rfl, rfl, rfl, rfl⟩
  · simp [generate_mint_transaction, hamt.not_le]
  · simp [generate_burn_transaction, hamt.not_le]
  · simp [generate_mint_transaction, hbad]
  · simp [generate_burn_transaction, hbad]
  · simp [generate_mint_transaction, hamt.not_le, hidx]
  · simp [generate_burn_transaction, hamt.not_le, hidx]

/-- C8 witness: the envelope behaviors at concrete requests. -/
theorem tx_endpoint_envelopes_witness :
    ((0 : Int) < 500000 ∧ (-7 : Int) ≤ 0 ∧ (3 : Nat) ≠ 0) ∧
    (generate_mint_transaction ⟨some "mainnet"⟩ ⟨0, 500000, "signerD", 1, none⟩ =
      (200, Json.obj [("success", Json.bool true),
                      ("data", Json.obj [("transaction", Json.str mint_tx)])]) ∧
     generate_burn_transaction ⟨some "mainnet"⟩ ⟨0, 500000, "signerD", 1, none⟩ =
      (200, Json.obj [("success", Json.bool true),
                      ("data", Json.obj [("transaction", Json.str burn_tx)])]) ∧
     generate_mint_transaction ⟨some "mainnet"⟩ ⟨0, -7, "signerD", 1, none⟩ =
      (400, Json.obj [("success", Json.bool false),
                      ("message", Json.str invalid_amount_message)]) ∧
     generate_burn_transaction ⟨some "mainnet"⟩ ⟨0, -7, "signerD", 1, none⟩ =
      (400, Json.obj [("success", Json.bool false),
                      ("message", Json.str invalid_amount_message)]) ∧
     generate_mint_transaction ⟨some "mainnet"⟩ ⟨3, 500000, "signerD", 1, none⟩ =
      (404, Json.obj [("success", Json.bool false),
                      ("message", Json.str asset_not_found_message)]) ∧
     generate_burn_transaction ⟨some "mainnet"⟩ ⟨3, 500000, "signerD", 1, none⟩ =
      (404, Json.obj [("success", Json.bool false),
                      ("message", Json.str asset_not_found_message)]) ∧
     generate_redemption_tx ⟨25, "holder2"⟩ =
      (200, Json.obj [("tx", Json.str "0xintredeem"),
                      ("amount", Json.num 25),
                      ("holder", Json.str "holder2")]) ∧
     generate_claim_tx ⟨"claimant2"⟩ =
      (200, Json.obj [("tx", Json.str "0xclaimtx"),
                      ("claimant", Json.str "claimant2")]) ∧
     (generate_redemption_tx ⟨25, "holder2"⟩).2.getField "success" = none ∧
     (generate_claim_tx ⟨"claimant2"⟩).2.getField "success" = none) :=
  ⟨⟨by norm_num, by norm_num, by norm_num⟩,
   tx_endpoint_envelopes 500000 (-7) "signerD" 1 none (some "mainnet") 3 25
     "holder2" "claimant2" (by norm_num) (by norm_num) (by norm_num)⟩

/-- C9: every supply-cap record returned by the supply-cap query has
remaining capacity plus current supply equal to the cap, and a
utilization percentage between 0 and 100 inclusive; the endpoint
returns exactly these records. -/
theorem supply_cap_invariant (c : SupplyCap) (hc : c ∈ supply_caps_data) :
    c.remaining_capacity + c.current_supply = c.supply_cap ∧
    0 ≤ c.utilization_percentage ∧ c.utilization_percentage ≤ 100 ∧
    get_supply_caps =
      (200, Json.obj [("success", Json.bool true),
                      ("data", Json.arr (supply_caps_data.map SupplyCap.toJson))]) := by
  have hcv : c = { index := 0, supply_cap := 1000000000,
                   current_supply := 500000000,
                   remaining_capacity := 500000000,
                   utilization_percentage := 50 } := by
    simpa [supply_caps_data] using hc
  subst hcv
  exact ⟨rfl, Nat.zero_le _, by norm_num, rfl⟩

/-- C9 witness: the single USDC+ record satisfies the invariants. -/
theorem supply_cap_invariant_witness :
    (SupplyCap.mk 0 1000000000 500000000 500000000 50 ∈ supply_caps_data) ∧
    ((SupplyCap.mk 0 1000000000 500000000 500000000 50).remaining_capacity +
        (SupplyCap.mk 0 1000000000 500000000 500000000 50).current_supply =
        (SupplyCap.mk 0 1000000000 500000000 500000000 50).supply_cap ∧
     0 ≤ (SupplyCap.mk 0 1000000000 500000000 500000000 50).utilization_percentage ∧
     (SupplyCap.mk 0 1000000000 500000000 500000000 50).utilization_percentage ≤ 100 ∧
     get_supply_caps =
       (200, Json.obj [("success", Json.bool true),
                       ("data", Json.arr (supply_caps_data.map SupplyCap.toJson))])) :=
  ⟨by decide,
   supply_cap_invariant (SupplyCap.mk 0 1000000000 500000000 500000000 50)
     (by decide)⟩

/-- C10: every pair of valid mint requests receives one and the same
response: HTTP 200 with the fixed transaction string, independent of
the deposit amount, signer, minimum received, collateral mint and
cluster; the burn generator returns the identical descriptor, the two
source literals being equal. -/
theorem mint_burn_tx_descriptor_constant (cl1 cl2 cl3 : ClusterQuery)
    (r1 r2 : MintRequest) (b : BurnRequest)
    (h1 : 0 < r1.depositAmount) (h1i : r1.stablecoinIndex = 0)
    (h2 : 0 < r2.depositAmount) (h2i : r2.stablecoinIndex = 0)
    (hb : 0 < b.deposit_amount) (hbi : b.stablecoin_index = 0) :
    generate_mint_transaction cl1 r1 = generate_mint_transaction cl2 r2 ∧
    generate_mint_transaction cl1 r1 =
      (200, Json.obj [("success", Json.bool true),
                      ("data", Json.obj [("transaction", Json.str mint_tx)])]) ∧
    mint_tx = burn_tx ∧
    generate_burn_transaction cl3 b = generate_mint_transaction cl1 r1 := by
  have e1 : generate_mint_transaction cl1 r1 =
      (200, Json.obj [("success", Json.bool true),
                      ("data", Json.obj [("transaction", Json.str mint_tx)])]) := by
    simp [generate_mint_transaction, h1.not_le, h1i]
  have e2 : generate_mint_transaction cl2 r2 =
      (200, Json.obj [("success", Json.bool true),
                      ("data", Json.obj [("transaction", Json.str mint_tx)])]) := by
    simp [generate_mint_transaction, h2.not_le, h2i]
  have e3 : generate_burn_transaction cl3 b =
      (200, Json.obj [("success", Json.bool true),
                      ("data", Json.obj [("transaction", Json.str burn_tx)])]) := by
    simp [generate_burn_transaction, hb.not_le, hbi]
  refine ⟨e1.trans e2.symm, e1, rfl, ?_⟩
  rw [e1, e3]
  rfl

/-- C10 witness: two thoroughly different valid mint requests and a
valid burn request all receive the identical descriptor response. -/
theorem mint_burn_tx_descriptor_constant_witness :
    ((0 : Int) < 1 ∧ (0 : Int) < 123456789 ∧ (0 : Int) < 777) ∧
    (generate_mint_transaction ⟨none⟩ ⟨0, 1, "alice", 5, none⟩ =
      generate_mint_transaction ⟨some "devnet"⟩
        ⟨0, 123456789, "bob", 999999, some "collateralX"⟩ ∧
     generate_mint_transaction ⟨none⟩ ⟨0, 1, "alice", 5, none⟩ =
      (200, Json.obj [("success", Json.bool true),
                      ("data", Json.obj [("transaction", Json.str mint_tx)])]) ∧
     mint_tx = burn_tx ∧
     generate_burn_transaction ⟨some "mainnet"⟩ ⟨0, 777, "carol", 1, some "m"⟩ =
      generate_mint_transaction ⟨none⟩ ⟨0, 1, "alice", 5, none⟩) :=
  ⟨⟨by norm_num, by norm_num, by norm_num⟩,
   mint_burn_tx_descriptor_constant ⟨none⟩ ⟨some "devnet"⟩ ⟨some "mainnet"⟩
     ⟨0, 1, "alice", 5, none⟩ ⟨0, 123456789, "bob", 999999, some "collateralX"⟩
     ⟨0, 777, "carol", 1, some "m"⟩
     (by norm_num) rfl (by norm_num) rfl (by norm_num) rfl⟩

end ReflectApi
